/-
  Verification of the deal-processing backend (the FastAPI service under
  src/app): a shallow embedding of the deal lifecycle orchestrator
  (DealService), the memo synthesis engine (MemoGenerator), metadata
  inference (MetadataExtractor), the record store (DealRepository) and the
  blob store (StorageService), together with proofs settling the frozen
  claims about the system.
-/
import Mathlib

set_option maxRecDepth 40000

namespace DealSpec

/-! ## Binary64 model

`MemoGenerator.generate` computes `round((team_strength + traction) / 40 * 5, 2)`
in Python: IEEE-754 binary64 arithmetic followed by CPython `round`, which
performs correct decimal rounding of the exact binary value with ties to even.
Every float produced by this pipeline is a dyadic rational, so we model
binary64 values exactly as `Dy` (an integer times a power of two, kept in
canonical form) and each operation as exact rational arithmetic followed by
`rnd53Pair`: rounding to a 53-bit significand with ties to even.  Overflow and
subnormals are outside the modelled range (all bounded claims and witnesses
stay many orders of magnitude inside it). -/

/-- Floor of the base-2 logarithm, fuel-based so that it reduces by kernel
computation (`Nat.log2` is defined by well-founded recursion and does not).
`ilog2 0 = 0`. -/
def ilog2Aux : ℕ → ℕ → ℕ
  | 0, _ => 0
  | fuel+1, n => if 2 ≤ n then ilog2Aux fuel (n / 2) + 1 else 0

/-- `ilog2 n = ⌊log₂ n⌋` for `n ≥ 1` (the fuel `n` dominates the recursion
depth `⌊log₂ n⌋`). -/
def ilog2 (n : ℕ) : ℕ := ilog2Aux n n

/-- A dyadic rational `num / 2 ^ exp`, the exact value of a binary64 float.
Canonical form (as produced by `rnd53Pair`): `num` odd, or `exp = 0`. -/
structure Dy where
  num : ℤ
  exp : ℕ
deriving DecidableEq, Repr

/-- Exact rational value of a modelled float. -/
def Dy.toRat (d : Dy) : ℚ := (d.num : ℚ) / 2 ^ d.exp

/-- Strip factors of two to put `n / 2 ^ e` in canonical form (fuel-based). -/
def stripTwoAux : ℕ → ℤ → ℕ → Dy
  | 0, n, e => ⟨n, e⟩
  | fuel+1, n, e =>
    if e = 0 then ⟨n, e⟩
    else if n % 2 = 0 then stripTwoAux fuel (Int.ediv n 2) (e - 1) else ⟨n, e⟩

/-- Canonical form of a dyadic rational. -/
def Dy.canon (d : Dy) : Dy := stripTwoAux d.exp d.num d.exp

/-- Round the exact rational `a / b` (with `b > 0`) to the nearest binary64
value: round to nearest with ties to even at a 53-bit significand.  The
exponent is found via a `2 ^ 100` shift, so magnitudes below `2 ^ (-100)`
collapse to the subnormal range, which this development never enters. -/
def rnd53Pair (a : ℤ) (b : ℕ) : Dy :=
  if a = 0 then ⟨0, 0⟩
  else
    let n : ℕ := a.natAbs
    let e : ℤ := (ilog2 (n * 2 ^ 100 / b) : ℤ) - 100
    let scale : ℤ := 52 - e
    let num' : ℕ := if 0 ≤ scale then n * 2 ^ scale.toNat else n
    let den' : ℕ := if 0 ≤ scale then b else b * 2 ^ (-scale).toNat
    let m0 : ℕ := num' / den'
    let r : ℕ := num' % den'
    let m : ℕ :=
      if 2 * r < den' then m0
      else if den' < 2 * r then m0 + 1
      else if m0 % 2 = 0 then m0 else m0 + 1
    let mag : Dy := if 0 ≤ scale then Dy.canon ⟨(m : ℤ), scale.toNat⟩
                    else ⟨((m * 2 ^ (-scale).toNat : ℕ) : ℤ), 0⟩
    if a < 0 then ⟨-mag.num, mag.exp⟩ else mag

/-- Nearest integer to `a / b` (with `b > 0`), ties to even: the decimal-digit
rounding CPython's `round` applies to the exact value of its float argument. -/
def halfEvenPair (a : ℤ) (b : ℕ) : ℤ :=
  let f := Int.fdiv a b
  let r := a - f * b
  if 2 * r < b then f
  else if (b : ℤ) < 2 * r then f + 1
  else if f % 2 = 0 then f else f + 1

/-- Nearest integer to `a / b` (with `b > 0`) rounding halves upward: the
"half-up" rounding named by the specification. -/
def halfUpPair (a : ℤ) (b : ℕ) : ℤ := Int.fdiv (2 * a + b) (2 * b)

/-- Python `int / int` true division: correctly rounded binary64 quotient. -/
def pyTrueDivDy (a : ℤ) (b : ℕ) : Dy := rnd53Pair a b

/-- Python `float * int`: the int converts exactly (small operands), and the
product is correctly rounded. -/
def pyMulIntDy (x : Dy) (c : ℤ) : Dy := rnd53Pair (x.num * c) (2 ^ x.exp)

/-- CPython `round(x, 2)` on a float `x`: correct decimal rounding of the
exact binary value to 2 decimal places with ties to even, then conversion of
that decimal back to the nearest binary64 value. -/
def pyRound2Dy (x : Dy) : Dy := rnd53Pair (halfEvenPair (x.num * 100) (2 ^ x.exp)) 100

/-! ## Python string helpers

The metadata heuristics use `str.splitlines`, `str.strip`, `str.split`,
`str.lower`, `str.startswith` and `str.split(":", 1)`.  They are embedded as
structural recursions over the character list of the string (the core
`String` primitives are defined by well-founded recursion over byte
positions, which blocks kernel evaluation).  Text is modelled as
newline-separated (`"\n"`); Python's `splitlines` drops one trailing empty
line which this splitter keeps, but an empty line is inert in every consumer
below (it is neither a company-name candidate nor a founder/team line). -/

/-- Python's `str.isspace` character class (ASCII range). -/
def isPySpace (c : Char) : Bool :=
  c = ' ' || c = '\t' || c = '\n' || c = '\x0d' || c = '\x0b' || c = '\x0c'

/-- Split a character list on a separator predicate, keeping empty chunks
(the semantics of Python `str.split(sep)` for a concrete separator). -/
def splitCharsOnPred (p : Char → Bool) : List Char → List (List Char)
  | [] => [[]]
  | c :: cs =>
    let rest := splitCharsOnPred p cs
    if p c then [] :: rest
    else
      match rest with
      | [] => [[c]]
      | h :: t => (c :: h) :: t

/-- Python `str.strip()` on a character list. -/
def stripChars (l : List Char) : List Char :=
  ((l.dropWhile isPySpace).reverse.dropWhile isPySpace).reverse

/-- Python `str.splitlines` on newline-separated text. -/
def pySplitlines (s : String) : List String :=
  (splitCharsOnPred (· = '\n') s.toList).map List.asString

/-- Python `str.strip()`. -/
def pyStrip (s : String) : String := (stripChars s.toList).asString

/-- Python `str.split()` with no separator: split on whitespace runs and drop
empty chunks. -/
def pySplitWs (s : String) : List String :=
  ((splitCharsOnPred isPySpace s.toList).filter (· ≠ [])).map List.asString

/-- Python `str.lower()` (ASCII case mapping). -/
def pyLower (s : String) : String := (s.toList.map Char.toLower).asString

/-- Python `str.startswith(pre)`. -/
def pyStartsWith (s pre : String) : Bool := pre.toList.isPrefixOf s.toList

/-- Tail of the character list after its first colon, when one exists. -/
def tailAfterColon : List Char → Option (List Char)
  | [] => none
  | c :: cs => if c = ':' then some cs else tailAfterColon cs

/-- Python `s.split(":", 1)[-1]`: everything after the first colon, or the
whole string when it has no colon. -/
def afterFirstColon (s : String) : String :=
  ((tailAfterColon s.toList).getD s.toList).asString

/-- Contiguous-substring test on character lists. -/
def charsInfixOf (needle : List Char) : List Char → Bool
  | [] => needle.isEmpty
  | c :: t => needle.isPrefixOf (c :: t) || charsInfixOf needle t

/-- Python `needle in haystack` substring test. -/
def pyContains (hay needle : String) : Bool := charsInfixOf needle.toList hay.toList

/-- Python `s.rstrip("/")`. -/
def pyRStripSlashes (s : String) : String :=
  (s.toList.reverse.dropWhile (· = '/')).reverse.asString

/-- Python slicing `s[:n]` (by code points). -/
def pyTake (s : String) (n : ℕ) : String := (s.toList.take n).asString

/-- Python `len(s)` (code points). -/
def pyLen (s : String) : ℕ := s.toList.length

/-! ## MetadataExtractor (src/app/services/extraction.py) -/

/-- Candidate test of `MetadataExtractor._guess_company_name`, applied to a
stripped line: `if line and len(line.split()) <= 5`. -/
def isCompanyCandidate (line : String) : Bool :=
  line != "" && decide ((pySplitWs line).length ≤ 5)

/-- Loop body of `MetadataExtractor._guess_company_name`: return the first
stripped line that is non-empty with at most 5 whitespace-separated tokens. -/
def guessCompanyLines : List String → String
  | [] => ""
  | l :: ls =>
    let line := pyStrip l
    if isCompanyCandidate line then line else guessCompanyLines ls

/-- `MetadataExtractor._guess_company_name`. -/
def guess_company_name (text : String) : String := guessCompanyLines (pySplitlines text)

/-- Predicate of `MetadataExtractor._guess_founders`: the stripped line starts
(case-insensitively) with "founder" or "team". -/
def isFounderTeamLine (clean : String) : Bool :=
  pyStartsWith (pyLower clean) "founder" || pyStartsWith (pyLower clean) "team"

/-- Per-line extraction of `_guess_founders`: split the part after the first
colon on commas, strip each segment, drop empties. -/
def founderSegments (clean : String) : List String :=
  (((splitCharsOnPred (· = ',') (afterFirstColon clean).toList).map
      (fun seg => (stripChars seg).asString)).filter (· ≠ ""))

/-- Loop body of `MetadataExtractor._guess_founders` (before the `[:5]`
truncation): collect segments across all matching lines in order. -/
def guessFoundersLines : List String → List String
  | [] => []
  | l :: ls =>
    let clean := pyStrip l
    if isFounderTeamLine clean then founderSegments clean ++ guessFoundersLines ls
    else guessFoundersLines ls

/-- `MetadataExtractor._guess_founders`. -/
def guess_founders (text : String) : List String :=
  (guessFoundersLines (pySplitlines text)).take 5

/-- Keyword table of `MetadataExtractor._guess_sector`, in insertion order
(Python dicts iterate in insertion order). -/
def sectorKeywords : List (String × String) :=
  [("ai", "Artificial Intelligence"), ("health", "Healthcare"),
   ("fintech", "FinTech"), ("agri", "Agriculture"),
   ("edtech", "Education Technology")]

/-- `MetadataExtractor._guess_sector`: first keyword occurring as a substring
of the lowered text wins, default "General". -/
def guess_sector (text : String) : String :=
  let lowered := pyLower text
  match sectorKeywords.find? (fun kv => pyContains lowered kv.1) with
  | some kv => kv.2
  | none => "General"

/-- `MetadataExtractor.extract`.  The Python method first unwraps
`extracted_text["pitch_deck"]` (a plain string at both call sites, or the
`raw_text` of a dict); callers below pass that string directly.  The `or`
fallback fires exactly when `_guess_company_name` returns `""`, i.e. when no
candidate line exists. -/
def MetadataExtractor.extract (deal_id : String) (text : String) :
    String × List String × String :=
  let company := let c := guess_company_name text
                 if c = "" then "Deal " ++ deal_id else c
  (company, guess_founders text, guess_sector text)

/-! ## Weightage model (src/app/services/extraction.py, deal_models.py) -/

/-- A Python `Dict[str, int]` weightage map. -/
abbrev WMap : Type := List (String × ℤ)

/-- Python `dict.get(key, default)` (keys are unique in a Python dict; the
first binding wins). -/
def wget (w : WMap) (key : String) (dflt : ℤ) : ℤ :=
  match List.find? (fun kv => kv.1 = key) w with
  | some kv => kv.2
  | none => dflt

/-- `default_weightage()`. -/
def default_weightage : WMap :=
  [("traction", 20), ("team_strength", 20), ("claim_credibility", 20),
   ("financial_health", 20), ("market_opportunity", 20)]

/-- Pydantic model `DealWeightage` (all five dimensions default to 20). -/
structure DealWeightage where
  traction : ℤ := 20
  team_strength : ℤ := 20
  claim_credibility : ℤ := 20
  financial_health : ℤ := 20
  market_opportunity : ℤ := 20
deriving DecidableEq, Repr

/-- `payload.dict()` on a `DealWeightage`. -/
def DealWeightage.dict (p : DealWeightage) : WMap :=
  [("traction", p.traction), ("team_strength", p.team_strength),
   ("claim_credibility", p.claim_credibility), ("financial_health", p.financial_health),
   ("market_opportunity", p.market_opportunity)]

/-! ## Memo draft shape (src/app/services/memo_generator.py) -/

structure FounderProfile where
  name : String
  education : String
  professional_background : String
  previous_ventures : String
deriving DecidableEq, Repr

structure TamMetric where
  name : String
  value : String
  cagr : String
  source : String
deriving DecidableEq, Repr

structure SomMetric where
  name : String
  value : String
  projection : String
  cagr : String
  source : String
deriving DecidableEq, Repr

structure IndustrySize where
  total_addressable_market : TamMetric
  serviceable_obtainable_market : SomMetric
  commentary : String
deriving DecidableEq, Repr

structure CompetitorDetail where
  name : String
  category : String
  business_model : String
  funding : String
  margins : String
  commentary : String
deriving DecidableEq, Repr

structure MarketAnalysis where
  industry_size_and_growth : IndustrySize
  sub_segment_opportunities : List String
  competitor_details : List CompetitorDetail
  recent_news : String
deriving DecidableEq, Repr

structure BusinessModel where
  revenue_streams : String
  pricing : String
  unit_economics : String
  scalability : String
deriving DecidableEq, Repr

structure ArrMrr where
  current_booked_arr : String
  current_mrr : String
deriving DecidableEq, Repr

structure BurnRunway where
  funding_ask : String
  stated_runway : String
  implied_net_burn : String
deriving DecidableEq, Repr

structure FinancialProjection where
  year : String
  revenue : String
deriving DecidableEq, Repr

structure Financials where
  arr_mrr : ArrMrr
  burn_and_runway : BurnRunway
  funding_history : String
  valuation_rationale : String
  projections : List FinancialProjection
deriving DecidableEq, Repr

structure ClaimAnalysis where
  claim : String
  analysis_method : String
  input_dataset_length : String
  simulation_assumptions : String
  simulated_probability : String
  result : String
deriving DecidableEq, Repr

structure RiskMetrics where
  composite_risk_score : Dy
  score_interpretation : String
  narrative_justification : String
deriving DecidableEq, Repr

structure Conclusion where
  overall_attractiveness : String
deriving DecidableEq, Repr

structure CompanyOverview where
  name : String
  sector : String
  founders : List FounderProfile
  technology : String
deriving DecidableEq, Repr

structure MemoDraft where
  company_overview : CompanyOverview
  market_analysis : MarketAnalysis
  business_model : BusinessModel
  financials : Financials
  claims_analysis : List ClaimAnalysis
  risk_metrics : RiskMetrics
  conclusion : Conclusion
deriving DecidableEq, Repr

/-- The risk-score expression of `MemoGenerator.generate`:
`round((team_strength + traction) / 40 * 5, 2)` in Python float arithmetic. -/
def riskOfSum (k : ℤ) : Dy := pyRound2Dy (pyMulIntDy (pyTrueDivDy k 40) 5)

/-- `MemoGenerator.generate`, deterministic body (the returned wall-clock
`datetime.utcnow()` is threaded by callers as an explicit timestamp).  The
Python `[...] or [...]` idiom falls back to the sentinel profile exactly when
the mapped list is empty. -/
def MemoGenerator.generate (company_name sector : String) (founders : List String)
    (pitch_text : String) (weightage : WMap) : MemoDraft :=
  let founder_profiles :=
    let mapped := founders.map fun name =>
      FounderProfile.mk name "Not provided" "Pending founder interview" ""
    if mapped = [] then [FounderProfile.mk "Founder Information Pending" "" "" ""]
    else mapped
  let summary := pyTake pitch_text 300 ++ (if 300 < pyLen pitch_text then "..." else "")
  let risk_score := riskOfSum (wget weightage "team_strength" 20 + wget weightage "traction" 20)
  { company_overview :=
      { name := company_name
        sector := sector
        founders := founder_profiles
        technology := "Insights require detailed parsing of the pitch deck" }
    market_analysis :=
      { industry_size_and_growth :=
          { total_addressable_market :=
              { name := "Total Addressable Market", value := "Pending validation",
                cagr := "Pending", source := "Requires analyst input" }
            serviceable_obtainable_market :=
              { name := "Serviceable Obtainable Market", value := "Pending validation",
                projection := "Pending", cagr := "Pending", source := "Requires analyst input" }
            commentary := "Auto-generated summary from available material." }
        sub_segment_opportunities := ["Further research required"]
        competitor_details :=
          [{ name := "Competitor Placeholder", category := sector,
             business_model := "Comparable startup", funding := "Unknown",
             margins := "Unknown",
             commentary := "Add manually once public data is aggregated." }]
        recent_news := "News scraping pipeline not configured in local mode." }
    business_model :=
      { revenue_streams := "Derived from pitch materials: " ++ summary
        pricing := "Requires analyst confirmation."
        unit_economics := "Awaiting data from founder conversation."
        scalability := "Linked to team execution and market pull." }
    financials :=
      { arr_mrr := { current_booked_arr := "Unavailable", current_mrr := "Unavailable" }
        burn_and_runway :=
          { funding_ask := "Pending", stated_runway := "Pending", implied_net_burn := "Pending" }
        funding_history := "Provide deal history once verified."
        valuation_rationale := "Will be generated from financial data ingestion."
        projections := [{ year := "Year 1", revenue := "To be forecasted" }] }
    claims_analysis :=
      [{ claim := "Key growth claim extracted from memo."
         analysis_method := "Simulation placeholder"
         input_dataset_length := "0"
         simulation_assumptions := "Awaiting dataset"
         simulated_probability := toString (max (wget weightage "traction" 20) 1) ++ "%"
         result := "Pending validation" }]
    risk_metrics :=
      { composite_risk_score := risk_score
        score_interpretation := "Lower is better. Replace once risk engine is integrated."
        narrative_justification := "Generated using default heuristics." }
    conclusion :=
      { overall_attractiveness := "Automatic draft. Requires investment committee review." } }

/-! ## Deal record model (deal document assembled in deal_service.py)

Python represents the record as a nested dict with a fixed key set; we embed
it as structures.  Wall-clock datetimes are abstracted as integer ticks (the
ISO rendering with a trailing "Z" is an injective formatting of the
timestamp).  The loosely-typed `public_data` bag and the Document AI
`analysis` payload are opaque to every operation in this core; the payload is
carried as an uninterpreted string and the bag's collections as initially
empty lists, exactly as `process_upload` populates them. -/

structure RawFiles where
  pitch_deck_url : Option String
deriving DecidableEq, Repr

structure PublicData where
  competitors : List String
  news : List String
  market_stats : List (String × String)
  founder_profile : List String
  startup_analysis : String
deriving DecidableEq, Repr

structure DealMetadata where
  weightage : WMap
  created_at : ℤ
  status : String
  deal_id : String
  company_name : String
  processed_at : ℤ
  error : Option String
  sector : String
  founder_names : List String
deriving DecidableEq, Repr

/-- `extracted_text.pitch_deck` of the record. -/
structure PitchDeckText where
  raw_text : String
  analysis : String
deriving DecidableEq, Repr

structure MemoDocument where
  draft_v1 : MemoDraft
  generated_at : ℤ
  docx_url : String
deriving DecidableEq, Repr

structure Transcript where
  participant : String
  message : String
  timestamp : String
deriving DecidableEq, Repr

structure Invite where
  token : String
  founder_email : String
  expires_at : ℤ
  used : Bool
  invite_url : String
deriving DecidableEq, Repr

structure DealRecord where
  raw_files : RawFiles
  public_data : PublicData
  metadata : DealMetadata
  extracted_text : PitchDeckText
  memo : MemoDocument
  founder_chat : List Transcript
  founder_invite : Option Invite
deriving DecidableEq, Repr

/-- Boundary validation of `FounderInviteRequest.expires_in_minutes`
(pydantic `Field(default=60, ge=5, le=1440)`). -/
def founderInviteMinutesValid (m : ℤ) : Bool := 5 ≤ m && m ≤ 1440

/-! ## Capabilities and system state

The record store (`DealRepository`, in-memory fallback semantics: a dict keyed
by deal id) and the blob store (`StorageService`: objects keyed by
`{deal_id}/{filename}`, carrying a content type) are embedded as functions.
An effect trace records the order of store mutations so ordering claims
("upsert is the final step", "record delete, then blob folder delete") are
statable. -/

inductive Err where
  | notFound (detail : String)
  | fileNotFound (message : String)
deriving DecidableEq, Repr

inductive Effect where
  | blobUpload (deal_id filename : String)
  | recordUpsert (deal_id : String)
  | recordDelete (deal_id : String)
  | blobDeleteFolder (deal_id : String)
  | setInvite (deal_id : String)
  | appendChat (deal_id : String)
deriving DecidableEq, Repr

structure Sys where
  bucket : String
  invite_base_url : String
  repo : String → Option DealRecord
  blobs : String → String → Option String
  trace : List Effect

/-- Pointwise update of the record store (dict assignment). -/
def storeUpdate (f : String → Option DealRecord) (key : String) (v : DealRecord) :
    String → Option DealRecord :=
  fun k => if k = key then some v else f k

/-- `StorageService.upload_bytes`: store the blob under `{deal_id}/{filename}`
and return its `gs://` URL.  Blob bytes are not inspected by any claim; the
store records presence and content type. -/
def uploadBytes (st : Sys) (deal_id filename content_type : String) : Sys × String :=
  ({ st with
      blobs := fun d f => if d = deal_id ∧ f = filename then some content_type else st.blobs d f
      trace := st.trace ++ [Effect.blobUpload deal_id filename] },
   "gs://" ++ st.bucket ++ "/" ++ deal_id ++ "/" ++ filename)

/-- `DealRepository.upsert`. -/
def repoUpsert (st : Sys) (deal_id : String) (record : DealRecord) : Sys :=
  { st with
      repo := storeUpdate st.repo deal_id record
      trace := st.trace ++ [Effect.recordUpsert deal_id] }

/-- `DealRepository.set_invite`.  (For a missing id the Python fallback
`setdefault`s a fresh partial document; `DealService` always checks existence
first, so that branch is unreachable from the service and the store is left
unchanged here.) -/
def repoSetInvite (st : Sys) (deal_id : String) (invite : Invite) : Sys :=
  { st with
      repo := fun k => if k = deal_id
                       then (st.repo k).map fun r => { r with founder_invite := some invite }
                       else st.repo k
      trace := st.trace ++ [Effect.setInvite deal_id] }

/-- `DealRepository.append_chat_transcript` (same unreachable-missing-id
remark as `repoSetInvite`). -/
def repoAppendChat (st : Sys) (deal_id : String) (transcript : Transcript) : Sys :=
  { st with
      repo := fun k => if k = deal_id
                       then (st.repo k).map fun r => { r with founder_chat := r.founder_chat ++ [transcript] }
                       else st.repo k
      trace := st.trace ++ [Effect.appendChat deal_id] }

/-- The MIME type `deal_service.py` attaches to the rendered memo. -/
def docxContentType : String :=
  "application/vnd.openxmlformats-officedocument.wordprocessingml.document"

/-! ## DealService (src/app/services/deal_service.py) -/

/-- The inbound `UploadFile`.  Python treats a missing or empty filename /
content type as falsy; the empty-string case is folded into `none`. -/
structure UploadFile where
  filename : Option String
  content_type : Option String
  content : String
deriving DecidableEq, Repr

/-- Output of `DocumentExtractor.extract_text` (external Document AI
capability): raw text plus an opaque structured-analysis payload. -/
structure ExtractedRaw where
  pitch_deck : String
  analysis : String
deriving DecidableEq, Repr

/-- `DealService.process_upload`.  The generated deal id, the extraction
capability and the three `datetime.utcnow()` readings (`created_at`,
`processed_at` and the memo generation time, evaluated independently in the
source) are explicit parameters.  Effects happen in source order: raw-file
blob upload, memo.docx blob upload, record upsert last. -/
def process_upload (st : Sys) (deal_id : String) (upload : UploadFile)
    (extractor : String → String → ExtractedRaw)
    (created_at processed_at generated_at : ℤ) : Sys × DealRecord :=
  let file_bytes := upload.content
  let filename := upload.filename.getD ("upload_" ++ deal_id)
  let content_type := upload.content_type.getD "application/octet-stream"
  let up1 := uploadBytes st deal_id filename content_type
  let extracted := extractor file_bytes content_type
  let meta := MetadataExtractor.extract deal_id extracted.pitch_deck
  let company_name := meta.1
  let founders := meta.2.1
  let sector := meta.2.2
  let weightage := default_weightage
  let memo_body := MemoGenerator.generate company_name sector founders extracted.pitch_deck weightage
  let up2 := uploadBytes up1.1 deal_id "memo.docx" docxContentType
  let deal_document : DealRecord :=
    { raw_files := { pitch_deck_url := some up1.2 }
      public_data :=
        { competitors := [], news := [], market_stats := [], founder_profile := []
          startup_analysis := extracted.analysis }
      metadata :=
        { weightage := weightage, created_at := created_at, status := "processed"
          deal_id := deal_id, company_name := company_name, processed_at := processed_at
          error := none, sector := sector, founder_names := founders }
      extracted_text := { raw_text := extracted.pitch_deck, analysis := extracted.analysis }
      memo := { draft_v1 := memo_body, generated_at := generated_at, docx_url := up2.2 }
      founder_chat := []
      founder_invite := none }
  (repoUpsert up2.1 deal_id deal_document, deal_document)

/-- `DealService.regenerate_memo`.  Reads the stored record (404 when
absent), re-synthesizes the memo from the stored extracted text and the
caller's weightage, re-uploads `memo.docx`, replaces `metadata.weightage` and
the whole `memo` object, and upserts the full record.  (The Python
`deal.get(..., default)` fallbacks are unreachable on records of this shape,
which always carry every key.) -/
def regenerate_memo (st : Sys) (deal_id : String) (payload : DealWeightage)
    (generated_at : ℤ) : Except Err (Sys × DealRecord) :=
  match st.repo deal_id with
  | none => .error (Err.notFound "Deal not found")
  | some deal =>
    let memo_body := MemoGenerator.generate deal.metadata.company_name deal.metadata.sector
        deal.metadata.founder_names deal.extracted_text.raw_text payload.dict
    let up := uploadBytes st deal_id "memo.docx" docxContentType
    let deal' : DealRecord :=
      { deal with
          metadata := { deal.metadata with weightage := payload.dict }
          memo := { draft_v1 := memo_body, generated_at := generated_at, docx_url := up.2 } }
    .ok (repoUpsert up.1 deal_id deal', deal')

/-- `DealService.get_deal`. -/
def get_deal (st : Sys) (deal_id : String) : Except Err DealRecord :=
  match st.repo deal_id with
  | none => .error (Err.notFound "Deal not found")
  | some deal => .ok deal

/-- State after a successful `delete_deal`: record removed from the record
store, then every blob under the `{deal_id}/` folder removed. -/
def sysAfterDelete (st : Sys) (deal_id : String) : Sys :=
  { st with
      repo := fun k => if k = deal_id then none else st.repo k
      blobs := fun d f => if d = deal_id then none else st.blobs d f
      trace := st.trace ++ [Effect.recordDelete deal_id, Effect.blobDeleteFolder deal_id] }

/-- `DealService.delete_deal`. -/
def delete_deal (st : Sys) (deal_id : String) : Except Err Sys :=
  match st.repo deal_id with
  | none => .error (Err.notFound "Deal not found")
  | some _ => .ok (sysAfterDelete st deal_id)

/-- `DealService.download_pitch_deck`: 404 when the deal record is absent,
404 when `raw_files.pitch_deck_url` is unset (Python falsiness also catches
an empty URL), otherwise download the blob named by the URL's trailing path
segment (`FileNotFoundError` from the storage layer when the blob is gone). -/
def download_pitch_deck (st : Sys) (deal_id : String) : Except Err (String × String) :=
  match get_deal st deal_id with
  | .error e => .error e
  | .ok deal =>
    match deal.raw_files.pitch_deck_url with
    | none => .error (Err.notFound "Pitch deck not available")
    | some raw_url =>
      if raw_url = "" then .error (Err.notFound "Pitch deck not available")
      else
        let filename := (raw_url.splitOn "/").getLastD ""
        match st.blobs deal_id filename with
        | none => .error (Err.fileNotFound
            ("Object " ++ filename ++ " for deal " ++ deal_id ++ " not found"))
        | some content_type => .ok (filename, content_type)

/-- `DealService.create_founder_invite`.  The generated uuid token and the
`datetime.utcnow()` reading are explicit parameters; `expires_at` is measured
in minutes.  No range check on `expires_in_minutes` happens here. -/
def create_founder_invite (st : Sys) (deal_id founder_email : String)
    (expires_in_minutes : ℤ) (now : ℤ) (token : String) : Except Err (Sys × Invite) :=
  match st.repo deal_id with
  | none => .error (Err.notFound "Deal not found")
  | some _ =>
    let expires_at := now + expires_in_minutes
    let invite_url := pyRStripSlashes st.invite_base_url ++ "/" ++ token
    let invite : Invite :=
      { token := token, founder_email := founder_email, expires_at := expires_at
        used := false, invite_url := invite_url }
    .ok (repoSetInvite st deal_id invite, invite)

/-- `DealService.record_founder_chat`. -/
def record_founder_chat (st : Sys) (deal_id : String) (transcript : Transcript) :
    Except Err Sys :=
  match st.repo deal_id with
  | none => .error (Err.notFound "Deal not found")
  | some _ => .ok (repoAppendChat st deal_id transcript)

/-! ## Claim-level reference definitions -/

/-- Value demanded by claim C1's reading of the score: half-up decimal
rounding to 2 places of the exact `(team_strength + traction) / 40 * 5 =
(t + s) / 8`, expressed in hundredths (the rational `· / 100`). -/
def claimRiskHalfUpScaled (team_strength traction : ℤ) : ℤ :=
  halfUpPair (25 * (team_strength + traction)) 2

/-- Claim C6 read literally: the first raw line of the text that is a
non-empty string with at most 5 whitespace-separated tokens, returned
unmodified; `"Deal {dealId}"` when no such line exists. -/
def claimCompanyNameLiteral (text deal_id : String) : String :=
  match (pySplitlines text).find? isCompanyCandidate with
  | some line => line
  | none => "Deal " ++ deal_id

/-- Claim C6 as amended: each line is stripped first; the first line whose
stripped text is non-empty with at most 5 whitespace-separated tokens is
returned in stripped form; `"Deal {dealId}"` otherwise. -/
def amendedCompanyName (text deal_id : String) : String :=
  match ((pySplitlines text).map pyStrip).find? isCompanyCandidate with
  | some line => line
  | none => "Deal " ++ deal_id

/-- Claim C7 as worded: take the lines whose trimmed text starts
case-insensitively with "founder" or "team", split each remainder after the
first colon on commas, trim segments, drop empties, concatenate in discovery
order, truncate to the first 5. -/
def claimFounders (text : String) : List String :=
  (((pySplitlines text).filter (fun l => isFounderTeamLine (pyStrip l))).flatMap
      (fun l => founderSegments (pyStrip l))).take 5

/-- Observable outcome of `create_founder_invite`: the stored expiry on
success, `none` on rejection. -/
def inviteExpiry : Except Err (Sys × Invite) → Option ℤ
  | .ok (_, invite) => some invite.expires_at
  | .error _ => none

/-- Claim C4's invariant: every stored record's `metadata.deal_id` equals the
key it is stored under. -/
def DealIdInvariant (st : Sys) : Prop :=
  ∀ deal_id r, st.repo deal_id = some r → r.metadata.deal_id = deal_id

/-- Resulting state of an `Except`-returning operation (state unchanged on
error). -/
def exceptSys : Except Err Sys → Sys → Sys
  | .ok st', _ => st'
  | .error _, st => st

/-- Resulting state of an operation returning a state/value pair. -/
def exceptSysFst {α : Type} : Except Err (Sys × α) → Sys → Sys
  | .ok (st', _), _ => st'
  | .error _, st => st

/-! ## Helper lemmas -/

theorem storeUpdate_self (f : String → Option DealRecord) (key : String) (v : DealRecord) :
    storeUpdate f key v key = some v := by
  simp [storeUpdate]

theorem storeUpdate_ne (f : String → Option DealRecord) (key k : String) (v : DealRecord)
    (h : k ≠ key) : storeUpdate f key v k = f k := by
  simp [storeUpdate, h]

/-- The record produced by a successful `regenerate_memo` on stored record
`deal`. -/
def regenResult (st : Sys) (deal : DealRecord) (deal_id : String)
    (payload : DealWeightage) (generated_at : ℤ) : DealRecord :=
  { deal with
      metadata := { deal.metadata with weightage := payload.dict }
      memo :=
        { draft_v1 := MemoGenerator.generate deal.metadata.company_name deal.metadata.sector
            deal.metadata.founder_names deal.extracted_text.raw_text payload.dict
          generated_at := generated_at
          docx_url := "gs://" ++ st.bucket ++ "/" ++ deal_id ++ "/" ++ "memo.docx" } }

theorem regenerate_memo_ok (st : Sys) (deal_id : String) (deal : DealRecord)
    (payload : DealWeightage) (generated_at : ℤ) (h : st.repo deal_id = some deal) :
    regenerate_memo st deal_id payload generated_at =
      Except.ok (repoUpsert (uploadBytes st deal_id "memo.docx" docxContentType).1 deal_id
          (regenResult st deal deal_id payload generated_at),
        regenResult st deal deal_id payload generated_at) := by
  unfold regenerate_memo
  rw [h]
  rfl

set_option maxHeartbeats 4000000 in
theorem riskOfSum_nat :
    ∀ n : ℕ, n < 201 → riskOfSum (n : ℤ) = rnd53Pair (halfEvenPair (25 * (n : ℤ)) 2) 100 := by
  decide

theorem riskOfSum_int (k : ℤ) (h0 : 0 ≤ k) (h1 : k ≤ 200) :
    riskOfSum k = rnd53Pair (halfEvenPair (25 * k) 2) 100 := by
  obtain ⟨n, rfl⟩ := Int.eq_ofNat_of_zero_le h0
  exact riskOfSum_nat n (by exact_mod_cast Int.lt_add_one_iff.mpr h1)

theorem guessCompanyLines_eq_find (ls : List String) :
    guessCompanyLines ls = (((ls.map pyStrip).find? isCompanyCandidate).getD "") := by
  induction ls with
  | nil => rfl
  | cons l ls ih =>
    by_cases hc : isCompanyCandidate (pyStrip l)
    · simp [guessCompanyLines, List.find?, hc]
    · simp only [guessCompanyLines, hc, if_false, List.map_cons, List.find?_cons,
        Bool.not_eq_true] at *
      rw [if_neg (by simp [hc]), ih]

theorem guessFoundersLines_eq_bind (ls : List String) :
    guessFoundersLines ls =
      (ls.filter (fun l => isFounderTeamLine (pyStrip l))).flatMap
        (fun l => founderSegments (pyStrip l)) := by
  induction ls with
  | nil => rfl
  | cons l ls ih =>
    by_cases hc : isFounderTeamLine (pyStrip l)
    · simp [guessFoundersLines, hc, List.filter_cons, ih]
    · simp [guessFoundersLines, hc, List.filter_cons, ih]

/-! ## Concrete system used by the witnesses -/

def samplePitch : String := "Acme Robotics\nFounders: Jane Doe, John Roe\nWe build agri drones"

def sampleRecord : DealRecord :=
  { raw_files := { pitch_deck_url := some "gs://bucket/d1/deck.pdf" }
    public_data :=
      { competitors := [], news := [], market_stats := [], founder_profile := []
        startup_analysis := "" }
    metadata :=
      { weightage := default_weightage, created_at := 0, status := "processed", deal_id := "d1"
        company_name := "Acme Robotics", processed_at := 0, error := none
        sector := "Agriculture", founder_names := ["Jane Doe", "John Roe"] }
    extracted_text := { raw_text := samplePitch, analysis := "" }
    memo :=
      { draft_v1 := MemoGenerator.generate "Acme Robotics" "Agriculture"
          ["Jane Doe", "John Roe"] samplePitch default_weightage
        generated_at := 0, docx_url := "gs://bucket/d1/memo.docx" }
    founder_chat := []
    founder_invite := none }

def sampleSys : Sys :=
  { bucket := "bucket"
    invite_base_url := "https://founder-chat.example.com/invite"
    repo := fun k => if k = "d1" then some sampleRecord else none
    blobs := fun d f =>
      if d = "d1" ∧ (f = "deck.pdf" ∨ f = "memo.docx") then some "application/pdf" else none
    trace := [] }

def samplePayload : DealWeightage := { traction := 30, team_strength := 10 }

def sampleTranscript : Transcript :=
  { participant := "founder", message := "hello", timestamp := "t0" }

theorem sampleSys_repo_d1 : sampleSys.repo "d1" = some sampleRecord := by
  simp [sampleSys]

theorem sampleSys_inv : DealIdInvariant sampleSys := by
  intro deal_id r h
  by_cases hid : deal_id = "d1"
  · subst hid
    rw [sampleSys_repo_d1] at h
    injection h with h'
    rw [← h']
    rfl
  · simp [sampleSys, hid] at h

/-! ## Claims -/

/-- C1 counterexample: at the weightage map `{traction: 21}` (with
`team_strength` defaulting to 20) the code computes
`round(41 / 40 * 5, 2) = round(5.125, 2) = 5.12`, because CPython resolves
the exact decimal tie to the even hundredth, while the claim's half-up
rounding demands `5.13`.  The stored score (the exact dyadic value
`num / 2 ^ exp`) differs from the half-up decimal `5.13 = 513/100`
(cross-multiplied comparison) and from its binary64 image. -/
theorem claim1_counterexample :
    (MemoGenerator.generate "X" "General" [] ""
        [("traction", 21)]).risk_metrics.composite_risk_score = rnd53Pair 512 100 ∧
    claimRiskHalfUpScaled 20 21 = 513 ∧
    (rnd53Pair 512 100).num * 100 ≠ 513 * 2 ^ (rnd53Pair 512 100).exp ∧
    rnd53Pair 512 100 ≠ rnd53Pair 513 100 :=
  ⟨by decide, by decide, by decide, by decide⟩

/-- C1 (amended): for every weightage map, `MemoGenerator.generate` sets
`risk_metrics.composite_risk_score` to
`round((team_strength + traction) / 40 * 5, 2)` evaluated in binary64 with
CPython's round-half-to-even (banker's) decimal rounding — not half-up —
`team_strength` and `traction` defaulting to 20 when absent.  For weights in
the documented 0–100 range the result is exactly the half-even rounding of
`(team_strength + traction) / 8` to 2 decimals, stored as the nearest
binary64 value; in particular traction=20, team_strength=20 yields 5.0 and
traction=40, team_strength=40 yields 10.0. -/
theorem claim1_composite_risk_score :
    (∀ (w : WMap) (c s p : String) (f : List String),
        (MemoGenerator.generate c s f p w).risk_metrics.composite_risk_score =
          riskOfSum (wget w "team_strength" 20 + wget w "traction" 20)) ∧
    (∀ w : WMap,
        0 ≤ wget w "team_strength" 20 → wget w "team_strength" 20 ≤ 100 →
        0 ≤ wget w "traction" 20 → wget w "traction" 20 ≤ 100 →
        riskOfSum (wget w "team_strength" 20 + wget w "traction" 20) =
          rnd53Pair (halfEvenPair
            (25 * (wget w "team_strength" 20 + wget w "traction" 20)) 2) 100) ∧
    riskOfSum (20 + 20) = ⟨5, 0⟩ ∧ riskOfSum (40 + 40) = ⟨10, 0⟩ ∧
    Dy.toRat ⟨5, 0⟩ = 5 ∧ Dy.toRat ⟨10, 0⟩ = 10 := by
  refine ⟨fun w c s p f => rfl,
    fun w h1 h2 h3 h4 => riskOfSum_int _ (by omega) (by omega),
    by decide, by decide, ?_, ?_⟩
  · norm_num [Dy.toRat]
  · norm_num [Dy.toRat]

/-- Witness for the bounded conjunct of C1 at the concrete map
`{traction: 37, team_strength: 55}`. -/
theorem claim1_witness :
    (0 ≤ wget [("traction", 37), ("team_strength", 55)] "team_strength" 20 ∧
     wget [("traction", 37), ("team_strength", 55)] "team_strength" 20 ≤ 100 ∧
     0 ≤ wget [("traction", 37), ("team_strength", 55)] "traction" 20 ∧
     wget [("traction", 37), ("team_strength", 55)] "traction" 20 ≤ 100) ∧
    riskOfSum (wget [("traction", 37), ("team_strength", 55)] "team_strength" 20 +
        wget [("traction", 37), ("team_strength", 55)] "traction" 20) =
      rnd53Pair (halfEvenPair
        (25 * (wget [("traction", 37), ("team_strength", 55)] "team_strength" 20 +
          wget [("traction", 37), ("team_strength", 55)] "traction" 20)) 2) 100 :=
  ⟨⟨by decide, by decide, by decide, by decide⟩,
   claim1_composite_risk_score.2.1 [("traction", 37), ("team_strength", 55)]
     (by decide) (by decide) (by decide) (by decide)⟩

/-- C6 counterexample: on the text `"  Acme Robotics  "` the extractor
returns the stripped line `"Acme Robotics"`, while the claim — the first
non-empty line with at most 5 whitespace-separated tokens, returned
case-preserved, i.e. as it occurs — names the raw line
`"  Acme Robotics  "`. -/
theorem claim6_counterexample :
    (MetadataExtractor.extract "abc123" "  Acme Robotics  ").1 = "Acme Robotics" ∧
    claimCompanyNameLiteral "  Acme Robotics  " "abc123" = "  Acme Robotics  " ∧
    (MetadataExtractor.extract "abc123" "  Acme Robotics  ").1 ≠
      claimCompanyNameLiteral "  Acme Robotics  " "abc123" :=
  ⟨by decide, by decide, by decide⟩

/-- C6 (amended): for every input string `MetadataExtractor` returns as
company name the stripped text of the first line whose stripped text is
non-empty with at most 5 whitespace-separated tokens (case preserved
otherwise), and returns `"Deal {dealId}"` when no such line exists — in
particular for empty text. -/
theorem claim6_company_name :
    (∀ text deal_id,
        (MetadataExtractor.extract deal_id text).1 = amendedCompanyName text deal_id) ∧
    (∀ deal_id, (MetadataExtractor.extract deal_id "").1 = "Deal " ++ deal_id) := by
  have main : ∀ text deal_id,
      (MetadataExtractor.extract deal_id text).1 = amendedCompanyName text deal_id := by
    intro text deal_id
    show (if guess_company_name text = "" then "Deal " ++ deal_id
          else guess_company_name text) = amendedCompanyName text deal_id
    unfold amendedCompanyName
    rw [guess_company_name, guessCompanyLines_eq_find]
    cases hf : ((pySplitlines text).map pyStrip).find? isCompanyCandidate with
    | none => simp
    | some line =>
      have hcand := List.find?_some hf
      have hline : line ≠ "" := by
        have := (Bool.and_eq_true _ _).mp hcand
        simpa [isCompanyCandidate, bne_iff_ne] using this.1
      simp [hline]
  exact ⟨main, fun deal_id => by rw [main]; rfl⟩

/-- C7: for every input string, the founders list is exactly the claim's
scan — lines whose trimmed text starts case-insensitively with "founder" or
"team", the remainder after the first colon (the whole trimmed line when it
has no colon, Python's `split(":", 1)[-1]`) split on commas, each segment
trimmed, empty segments dropped, collected across matching lines in
discovery order, truncated to the first 5 — and on the example text
`"Acme Robotics\nFounders: Jane Doe, John Roe\nWe build agri drones"` it
yields `["Jane Doe", "John Roe"]`. -/
theorem claim7_founders :
    (∀ text, guess_founders text = claimFounders text) ∧
    guess_founders "Acme Robotics\nFounders: Jane Doe, John Roe\nWe build agri drones" =
      ["Jane Doe", "John Roe"] ∧
    (∀ text, (guess_founders text).length ≤ 5) := by
  refine ⟨fun text => ?_, by decide, fun text => ?_⟩
  · unfold guess_founders claimFounders
    rw [guessFoundersLines_eq_bind]
  · unfold guess_founders
    rw [List.length_take]
    exact min_le_left _ _

/-- C8: for every founders list, `MemoGenerator.generate` produces
`company_overview.founders` with exactly one profile per founder name, in
order, each carrying the placeholder education/background/ventures fields;
when the founders list is empty it produces exactly one sentinel profile
named "Founder Information Pending". -/
theorem claim8_founder_profiles :
    ∀ (c s p : String) (w : WMap) (founders : List String),
      (MemoGenerator.generate c s founders p w).company_overview.founders =
        if founders = [] then
          [FounderProfile.mk "Founder Information Pending" "" "" ""]
        else founders.map fun name =>
          FounderProfile.mk name "Not provided" "Pending founder interview" "" := by
  intro c s p w founders
  cases founders with
  | nil => rfl
  | cons a l =>
    show (if (a :: l).map (fun name =>
            FounderProfile.mk name "Not provided" "Pending founder interview" "") = []
          then [FounderProfile.mk "Founder Information Pending" "" "" ""]
          else (a :: l).map (fun name =>
            FounderProfile.mk name "Not provided" "Pending founder interview" "")) = _
    simp

/-- Conclusion of claim C2 for a deal stored at `deal_id`. -/
def RegenFrameProp (st : Sys) (deal_id : String) (deal : DealRecord)
    (payload : DealWeightage) (generated_at : ℤ) : Prop :=
  ∃ st' deal',
    regenerate_memo st deal_id payload generated_at = Except.ok (st', deal') ∧
    deal'.raw_files = deal.raw_files ∧
    deal'.public_data = deal.public_data ∧
    deal'.extracted_text = deal.extracted_text ∧
    deal'.founder_chat = deal.founder_chat ∧
    deal'.founder_invite = deal.founder_invite ∧
    deal'.metadata = { deal.metadata with weightage := payload.dict } ∧
    deal'.memo =
      { draft_v1 := MemoGenerator.generate deal.metadata.company_name deal.metadata.sector
          deal.metadata.founder_names deal.extracted_text.raw_text payload.dict
        generated_at := generated_at
        docx_url := "gs://" ++ st.bucket ++ "/" ++ deal_id ++ "/" ++ "memo.docx" } ∧
    st'.repo deal_id = some deal' ∧
    (∀ k, k ≠ deal_id → st'.repo k = st.repo k)

/-- C2: for every stored deal record and every weightage payload,
`regenerate_memo` replaces exactly `metadata.weightage` and the entire
`memo` object (draft_v1, generated_at, docx_url) and writes the full record
back with upsert: the store maps `deal_id` to the new record and every other
key is untouched, while every other field of the record (raw_files,
public_data, extracted_text, founder_chat, founder_invite, and all metadata
fields other than weightage) is unchanged. -/
theorem claim2_regenerate_frame (st : Sys) (deal_id : String) (deal : DealRecord)
    (payload : DealWeightage) (generated_at : ℤ) (h : st.repo deal_id = some deal) :
    RegenFrameProp st deal_id deal payload generated_at := by
  refine ⟨_, _, regenerate_memo_ok st deal_id deal payload generated_at h,
    rfl, rfl, rfl, rfl, rfl, rfl, rfl, ?_, ?_⟩
  · simp [repoUpsert, uploadBytes, storeUpdate]
  · intro k hk
    simp [repoUpsert, uploadBytes, storeUpdate, hk]

/-- Witness for C2 at the concrete one-deal system. -/
theorem claim2_witness :
    sampleSys.repo "d1" = some sampleRecord ∧
    RegenFrameProp sampleSys "d1" sampleRecord samplePayload 7 :=
  ⟨sampleSys_repo_d1,
   claim2_regenerate_frame sampleSys "d1" sampleRecord samplePayload 7 sampleSys_repo_d1⟩

/-- Conclusion of claim C3: two successive regenerations with the same
payload agree on every derived memo field, while `generated_at` tracks the
respective synthesis times. -/
def RegenIdempotentProp (st : Sys) (deal_id : String) (payload : DealWeightage)
    (g1 g2 : ℤ) : Prop :=
  ∃ st1 r1 st2 r2,
    regenerate_memo st deal_id payload g1 = Except.ok (st1, r1) ∧
    regenerate_memo st1 deal_id payload g2 = Except.ok (st2, r2) ∧
    r2.memo.draft_v1 = r1.memo.draft_v1 ∧
    r2.memo.draft_v1.risk_metrics.composite_risk_score =
      r1.memo.draft_v1.risk_metrics.composite_risk_score ∧
    r2.memo.draft_v1.claims_analysis.map ClaimAnalysis.simulated_probability =
      r1.memo.draft_v1.claims_analysis.map ClaimAnalysis.simulated_probability ∧
    r2.memo.draft_v1.business_model.revenue_streams =
      r1.memo.draft_v1.business_model.revenue_streams ∧
    r1.memo.generated_at = g1 ∧ r2.memo.generated_at = g2

/-- C3: regeneration is idempotent on its inputs — for every stored deal
record, calling `regenerate_memo` twice with the same weightage payload
produces memo drafts whose derived fields (risk_metrics.composite_risk_score,
claims_analysis simulated_probability, and the summary excerpt embedded in
business_model.revenue_streams — in fact the whole draft) are identical,
while memo.generated_at carries each call's own synthesis time. -/
theorem claim3_regenerate_idempotent (st : Sys) (deal_id : String) (deal : DealRecord)
    (payload : DealWeightage) (g1 g2 : ℤ) (h : st.repo deal_id = some deal) :
    RegenIdempotentProp st deal_id payload g1 g2 := by
  have e1 := regenerate_memo_ok st deal_id deal payload g1 h
  have h2 : (repoUpsert (uploadBytes st deal_id "memo.docx" docxContentType).1 deal_id
      (regenResult st deal deal_id payload g1)).repo deal_id =
      some (regenResult st deal deal_id payload g1) := by
    simp [repoUpsert, uploadBytes, storeUpdate]
  have e2 := regenerate_memo_ok _ deal_id (regenResult st deal deal_id payload g1) payload g2 h2
  exact ⟨_, _, _, _, e1, e2, rfl, rfl, rfl, rfl, rfl, rfl⟩

/-- Witness for C3 at the concrete one-deal system. -/
theorem claim3_witness :
    sampleSys.repo "d1" = some sampleRecord ∧
    RegenIdempotentProp sampleSys "d1" samplePayload 3 9 :=
  ⟨sampleSys_repo_d1,
   claim3_regenerate_idempotent sampleSys "d1" sampleRecord samplePayload 3 9 sampleSys_repo_d1⟩

/-- C4: for every reachable stored deal record, `metadata.deal_id` equals the
record's store key: `process_upload` establishes the invariant at the freshly
generated id, and every mutating operation (`regenerate_memo`,
`record_founder_chat`, `create_founder_invite`) preserves it. -/
theorem claim4_deal_id_invariant (st : Sys) (hinv : DealIdInvariant st) :
    (∀ deal_id upload extractor created_at processed_at generated_at,
        DealIdInvariant
          (process_upload st deal_id upload extractor created_at processed_at generated_at).1) ∧
    (∀ deal_id payload generated_at,
        DealIdInvariant (exceptSysFst (regenerate_memo st deal_id payload generated_at) st)) ∧
    (∀ deal_id transcript,
        DealIdInvariant (exceptSys (record_founder_chat st deal_id transcript) st)) ∧
    (∀ deal_id founder_email expires_in_minutes now token,
        DealIdInvariant (exceptSysFst
          (create_founder_invite st deal_id founder_email expires_in_minutes now token) st)) := by
  refine ⟨?_, ?_, ?_, ?_⟩
  · intro deal_id upload extractor c p g k r hk
    simp only [process_upload, repoUpsert, uploadBytes, storeUpdate] at hk
    by_cases hk0 : k = deal_id
    · subst hk0
      rw [if_pos rfl] at hk
      injection hk with hk'
      rw [← hk']
    · rw [if_neg hk0] at hk
      exact hinv k r hk
  · intro deal_id payload g
    cases hr : st.repo deal_id with
    | none =>
      have e : regenerate_memo st deal_id payload g =
          Except.error (Err.notFound "Deal not found") := by
        unfold regenerate_memo; rw [hr]
      rw [e]
      exact hinv
    | some deal =>
      rw [regenerate_memo_ok st deal_id deal payload g hr]
      intro k r hk
      simp only [exceptSysFst, repoUpsert, uploadBytes, storeUpdate] at hk
      by_cases hk0 : k = deal_id
      · subst hk0
        rw [if_pos rfl] at hk
        injection hk with hk'
        rw [← hk']
        exact hinv _ deal hr
      · rw [if_neg hk0] at hk
        exact hinv k r hk
  · intro deal_id transcript
    cases hr : st.repo deal_id with
    | none =>
      have e : record_founder_chat st deal_id transcript =
          Except.error (Err.notFound "Deal not found") := by
        unfold record_founder_chat; rw [hr]
      rw [e]
      exact hinv
    | some deal =>
      have e : record_founder_chat st deal_id transcript =
          Except.ok (repoAppendChat st deal_id transcript) := by
        unfold record_founder_chat; rw [hr]
      rw [e]
      intro k r hk
      simp only [exceptSys, repoAppendChat] at hk
      by_cases hk0 : k = deal_id
      · subst hk0
        rw [if_pos rfl, hr] at hk
        injection hk with hk'
        rw [← hk']
        exact hinv _ deal hr
      · rw [if_neg hk0] at hk
        exact hinv k r hk
  · intro deal_id founder_email m now token
    cases hr : st.repo deal_id with
    | none =>
      have e : create_founder_invite st deal_id founder_email m now token =
          Except.error (Err.notFound "Deal not found") := by
        unfold create_founder_invite; rw [hr]
      rw [e]
      exact hinv
    | some deal =>
      have e : create_founder_invite st deal_id founder_email m now token =
          Except.ok (repoSetInvite st deal_id
            { token := token, founder_email := founder_email, expires_at := now + m
              used := false
              invite_url := pyRStripSlashes st.invite_base_url ++ "/" ++ token },
            { token := token, founder_email := founder_email, expires_at := now + m
              used := false
              invite_url := pyRStripSlashes st.invite_base_url ++ "/" ++ token }) := by
        unfold create_founder_invite; rw [hr]
      rw [e]
      intro k r hk
      simp only [exceptSysFst, repoSetInvite] at hk
      by_cases hk0 : k = deal_id
      · subst hk0
        rw [if_pos rfl, hr] at hk
        injection hk with hk'
        rw [← hk']
        exact hinv _ deal hr
      · rw [if_neg hk0] at hk
        exact hinv k r hk

/-- Witness for C4: the invariant holds of the concrete one-deal system and
is preserved by a concrete regeneration. -/
theorem claim4_witness :
    DealIdInvariant sampleSys ∧
    DealIdInvariant (exceptSysFst (regenerate_memo sampleSys "d1" samplePayload 3) sampleSys) :=
  ⟨sampleSys_inv, (claim4_deal_id_invariant sampleSys sampleSys_inv).2.1 "d1" samplePayload 3⟩

/-- C5 counterexample: with the deal present, `create_founder_invite` at
`expires_in_minutes = 10000` — far outside [5, 1440], rejected by the
boundary validator — succeeds and stores `expires_at = now + 10000`: the
orchestrator neither rejects nor clamps the out-of-range value but uses it
as-is, contradicting the claim's "rejects or clamps" requirement. -/
theorem claim5_counterexample :
    inviteExpiry (create_founder_invite sampleSys "d1" "jane" 10000 0 "tok") =
      some (0 + 10000) ∧
    founderInviteMinutesValid 10000 = false ∧
    ¬((10000 : ℤ) ≤ 1440) :=
  ⟨by decide, by decide, by decide⟩

/-- C5 (amended): for every existing deal and every integer
`expires_in_minutes`, `create_founder_invite` computes
`expires_at = now + expires_in_minutes`, using the value as-is — the
orchestrator performs no rejection or clamping; the [5, 1440] bound is
enforced only by the request model's boundary validation
(`FounderInviteRequest`, pydantic `ge=5, le=1440`). -/
theorem claim5_invite_expiry :
    (∀ (st : Sys) (deal_id founder_email : String) (m now : ℤ) (token : String)
        (deal : DealRecord), st.repo deal_id = some deal →
        inviteExpiry (create_founder_invite st deal_id founder_email m now token) =
          some (now + m)) ∧
    (∀ m : ℤ, founderInviteMinutesValid m = true ↔ 5 ≤ m ∧ m ≤ 1440) := by
  constructor
  · intro st deal_id founder_email m now token deal h
    unfold create_founder_invite
    rw [h]
    rfl
  · intro m
    simp [founderInviteMinutesValid]

/-- Witness for C5 at the concrete one-deal system. -/
theorem claim5_witness :
    sampleSys.repo "d1" = some sampleRecord ∧
    inviteExpiry (create_founder_invite sampleSys "d1" "jane" 60 5 "tok") = some (5 + 60) :=
  ⟨sampleSys_repo_d1,
   claim5_invite_expiry.1 sampleSys "d1" "jane" 60 5 "tok" sampleRecord sampleSys_repo_d1⟩

/-- Conclusion of claim C9 for a stored deal: the delete succeeds, removes
the record, removes every blob under the deal's folder (record first, then
blobs, per the effect trace), and afterwards both `get_deal` and
`download_pitch_deck` fail with NotFound. -/
def DeleteOkProp (st : Sys) (deal_id : String) : Prop :=
  delete_deal st deal_id = Except.ok (sysAfterDelete st deal_id) ∧
  (sysAfterDelete st deal_id).repo deal_id = none ∧
  (∀ filename, (sysAfterDelete st deal_id).blobs deal_id filename = none) ∧
  get_deal (sysAfterDelete st deal_id) deal_id =
    Except.error (Err.notFound "Deal not found") ∧
  download_pitch_deck (sysAfterDelete st deal_id) deal_id =
    Except.error (Err.notFound "Deal not found") ∧
  (sysAfterDelete st deal_id).trace =
    st.trace ++ [Effect.recordDelete deal_id, Effect.blobDeleteFolder deal_id]

/-- C9: `delete_deal` fails with NotFound when the deal id is absent from the
record store; when the deal exists it deletes the record from the record
store and then deletes every blob under the deal's folder, and after a
successful delete both `get_deal` and `download_pitch_deck` fail with
NotFound. -/
theorem claim9_delete :
    (∀ st deal_id, st.repo deal_id = none →
        delete_deal st deal_id = Except.error (Err.notFound "Deal not found")) ∧
    (∀ st deal_id deal, st.repo deal_id = some deal → DeleteOkProp st deal_id) := by
  constructor
  · intro st deal_id h
    unfold delete_deal
    rw [h]
  · intro st deal_id deal h
    have e : delete_deal st deal_id = Except.ok (sysAfterDelete st deal_id) := by
      unfold delete_deal; rw [h]
    have hrepo : (sysAfterDelete st deal_id).repo deal_id = none := by
      simp [sysAfterDelete]
    have hget : get_deal (sysAfterDelete st deal_id) deal_id =
        Except.error (Err.notFound "Deal not found") := by
      unfold get_deal; rw [hrepo]
    refine ⟨e, hrepo, fun filename => by simp [sysAfterDelete], hget, ?_, rfl⟩
    unfold download_pitch_deck
    rw [hget]

/-- Witness for C9: the NotFound branch at an absent id and the success
branch at the stored deal. -/
theorem claim9_witness :
    (sampleSys.repo "zzz" = none ∧
      delete_deal sampleSys "zzz" = Except.error (Err.notFound "Deal not found")) ∧
    (sampleSys.repo "d1" = some sampleRecord ∧ DeleteOkProp sampleSys "d1") :=
  ⟨⟨rfl, claim9_delete.1 sampleSys "zzz" rfl⟩,
   ⟨sampleSys_repo_d1, claim9_delete.2 sampleSys "d1" sampleRecord sampleSys_repo_d1⟩⟩

/-- C10: for every upload, the deal record assembled and upserted by
`process_upload` has `founder_chat = []`, `founder_invite = null`,
`metadata.status = "processed"` and `metadata.error = null`; and the record
upsert is the final step of the pipeline, after both blob uploads (raw file
first, then memo.docx), as the effect trace shows. -/
theorem claim10_upload_record :
    ∀ (st : Sys) (deal_id : String) (upload : UploadFile)
      (extractor : String → String → ExtractedRaw) (created_at processed_at generated_at : ℤ),
      (process_upload st deal_id upload extractor
          created_at processed_at generated_at).2.founder_chat = [] ∧
      (process_upload st deal_id upload extractor
          created_at processed_at generated_at).2.founder_invite = none ∧
      (process_upload st deal_id upload extractor
          created_at processed_at generated_at).2.metadata.status = "processed" ∧
      (process_upload st deal_id upload extractor
          created_at processed_at generated_at).2.metadata.error = none ∧
      (process_upload st deal_id upload extractor
          created_at processed_at generated_at).1.trace =
        st.trace ++
          [Effect.blobUpload deal_id (upload.filename.getD ("upload_" ++ deal_id)),
           Effect.blobUpload deal_id "memo.docx",
           Effect.recordUpsert deal_id] := by
  intro st deal_id upload extractor created_at processed_at generated_at
  refine ⟨rfl, rfl, rfl, rfl, ?_⟩
  simp [process_upload, uploadBytes, repoUpsert]

end DealSpec
